import Mathlib

/-!
Verification of the call-center analytics aggregation engine
(analytics/utils/metric_loader.py, analytics/utils/data_loader.py,
analytics/reporting/monthly/monthly_report.py,
analytics/reporting/weekly/weekly_report.py).

Numbers carried in metric snapshots are embedded as exact rationals;
Python's two-decimal rounding (round(x, 2), banker's rounding) is
modelled by round-half-to-even on rationals. Python dictionaries are
modelled as association lists with first-match lookup, and a pandas
DataFrame as its list of rows in file order together with its column
list. Dates used as period keys (first-of-month or Monday timestamps)
are embedded as integers, keeping only their total order, which is all
the code uses of them.
-/

namespace CallCenter

/-- Trend tag attached to every delta entry: "up", "down" or "flat". -/
inductive Trend where
  | up : Trend
  | down : Trend
  | flat : Trend
deriving DecidableEq

/-- A Python dictionary value as seen by calculate_deltas: either a
numeric value (int/float, embedded as an exact rational) or a
non-numeric value such as a string or a timestamp, for which
isinstance(v, (int, float)) is false. -/
inductive PyVal where
  | num : ℚ → PyVal
  | str : String → PyVal
deriving DecidableEq

/-- One entry of the dictionary returned by calculate_deltas. -/
structure DeltaEntry where
  value : ℚ
  percentage : ℚ
  trend : Trend
deriving DecidableEq

/-- A MetricSnapshot: Python dict from metric name to value, embedded
as an association list (insertion order preserved, keys unique in any
dict the program builds). -/
abbrev Snapshot := List (String × PyVal)

/-- Round a rational to the nearest integer, ties to even: the
semantics of Python's round on an exactly-representable value. -/
def roundHalfEvenQ (q : ℚ) : ℤ :=
  if q - (⌊q⌋ : ℚ) < 1/2 then ⌊q⌋
  else if (1:ℚ)/2 < q - (⌊q⌋ : ℚ) then ⌊q⌋ + 1
  else if ⌊q⌋ % 2 = 0 then ⌊q⌋ else ⌊q⌋ + 1

/-- Python round(x, 2): round to two decimal places, ties to even. -/
def round2 (q : ℚ) : ℚ := (roundHalfEvenQ (q * 100) : ℚ) / 100

/-- Embedding of MetricLoader.calculate_deltas
(analytics/utils/metric_loader.py, lines 261-299). Iterates over the
keys of the current snapshot in order; previous_metrics.get(key, 0) is
lookup with default 0; a key whose current or previous value is
non-numeric is skipped (the loop's continue); when the previous value
is nonzero the entry holds the signed difference, the percentage
change rounded to two decimals and a trend tag, and otherwise the
zero-division convention value/0/flat. The function is total: no code
path raises. -/
def calculate_deltas (current_metrics previous_metrics : Snapshot) :
    List (String × DeltaEntry) :=
  current_metrics.filterMap fun kv =>
    let key := kv.1
    let current_val := kv.2
    let previous_val := (List.lookup key previous_metrics).getD (PyVal.num 0)
    match current_val, previous_val with
    | PyVal.num c, PyVal.num p =>
      if p ≠ 0 then
        let delta := c - p
        let delta_pct := (delta / p) * 100
        some (key, { value := delta, percentage := round2 delta_pct,
                     trend := if delta > 0 then Trend.up
                              else if delta < 0 then Trend.down else Trend.flat })
      else
        some (key, { value := c, percentage := 0, trend := Trend.flat })
    | _, _ => none

/-! Tables of the overall and agent datasets. -/

/-- One row of the overall table: its period key (the month or
week_start column) and the remaining columns as a name-to-value map. -/
structure OverallRow where
  key : ℤ
  fields : List (String × ℚ)
deriving DecidableEq

/-- The overall table: column list plus rows. -/
structure OverallTable where
  cols : List String
  rows : List OverallRow
deriving DecidableEq

/-- One row of the agent table: period key, agent_id, and the remaining
columns. -/
structure AgentRow where
  key : ℤ
  agent_id : ℤ
  fields : List (String × ℚ)
deriving DecidableEq

/-- The granularity selector of DataLoader: monthly or weekly. -/
inductive Granularity where
  | monthly : Granularity
  | weekly : Granularity
deriving DecidableEq

/-- Python dict access d.get(k, 0) on a row's named numeric columns. -/
def dictGet (fields : List (String × ℚ)) (k : String) : ℚ :=
  (List.lookup k fields).getD 0

/-- Descending sort on period keys, embedding
sort_values(ascending=False) on a period-key column. -/
def sortKeysDesc (l : List ℤ) : List ℤ :=
  List.insertionSort (· ≥ ·) l

/-- Descending sort of overall rows by period key, embedding
overall_df.sort_values(date_col, ascending=False). -/
def sortRowsDesc (l : List OverallRow) : List OverallRow :=
  List.insertionSort (fun a b => a.key ≥ b.key) l

/-- Ascending sort of overall rows by period key, embedding
overall_df.sort_values(date_col, ascending=True). -/
def sortRowsAsc (l : List OverallRow) : List OverallRow :=
  List.insertionSort (fun a b => a.key ≤ b.key) l

/-- Embedding of DataLoader.get_periods
(analytics/utils/data_loader.py, lines 178-192): the period-key column
of the overall table sorted most recent first. Both granularity
branches sort their key column identically (the monthly branch also
carries the month_name display column, which is not part of the key
sequence). No deduplication is performed. -/
def get_periods (g : Granularity) (tbl : OverallTable) : List ℤ :=
  match g with
  | Granularity.monthly => sortKeysDesc (tbl.rows.map (·.key))
  | Granularity.weekly => sortKeysDesc (tbl.rows.map (·.key))

/-- Embedding of MonthlyReport.get_current_month
(analytics/reporting/monthly/monthly_report.py, lines 31-34):
the maximum of the period-key column (pandas Series.max). -/
def get_current_month (tbl : OverallTable) : WithBot ℤ :=
  (tbl.rows.map (·.key)).maximum

/-- Embedding of MonthlyReport.get_previous_month
(analytics/reporting/monthly/monthly_report.py, lines 36-43): the
period-key column is sorted descending and deduplicated (pandas
unique); the entry after the given month in that list is returned,
None when the given month is the oldest. The outer none models the
ValueError that list.index raises when the given month is not present
at all. -/
def get_previous_month (tbl : OverallTable) (current : ℤ) :
    Option (Option ℤ) :=
  let months := (sortKeysDesc (tbl.rows.map (·.key))).dedup
  match months.findIdx? (· = current) with
  | none => none
  | some i => some (months.get? (i + 1))

/-- Embedding of WeeklyReport.get_current_week
(analytics/reporting/weekly/weekly_report.py, lines 29-32): identical
to the monthly version over the week_start column. -/
def get_current_week (tbl : OverallTable) : WithBot ℤ :=
  (tbl.rows.map (·.key)).maximum

/-- Embedding of WeeklyReport.get_previous_week
(analytics/reporting/weekly/weekly_report.py, lines 34-41): identical
to the monthly version over the week_start column. -/
def get_previous_week (tbl : OverallTable) (current : ℤ) :
    Option (Option ℤ) :=
  let weeks := (sortKeysDesc (tbl.rows.map (·.key))).dedup
  match weeks.findIdx? (· = current) with
  | none => none
  | some i => some (weeks.get? (i + 1))

/-- Embedding of MetricLoader.get_overall_metrics for an explicit
period (analytics/utils/metric_loader.py, lines 27-51): the first row
whose period-key column equals the requested period, as a dict; an
empty dict (here none) when no row matches. -/
def get_overall_metrics (tbl : OverallTable) (period : ℤ) :
    Option (List (String × ℚ)) :=
  (tbl.rows.find? (fun r => r.key = period)).map (·.fields)

/-- Embedding of MetricLoader.get_agent_metrics for an explicit period
and no agent filter (analytics/utils/metric_loader.py, lines 53-80):
the agent rows whose period-key column equals the requested period. -/
def get_agent_metrics (tbl : List AgentRow) (period : ℤ) : List AgentRow :=
  tbl.filter (fun r => r.key = period)

/-- Embedding of MetricLoader.calculate_productivity_metrics for an
explicit period (analytics/utils/metric_loader.py, lines 130-181).
When no overall row matches the period, a nine-field all-zero snapshot
is returned; otherwise a thirteen-field snapshot is built from the
overall row's columns (dict .get with default 0), the number of
distinct agent ids for the period (Series.nunique), and
interactions_per_agent guarded against a zero agent count and rounded
to two decimals. -/
def calculate_productivity_metrics (overallTbl : OverallTable)
    (agentTbl : List AgentRow) (period : ℤ) : List (String × ℚ) :=
  match get_overall_metrics overallTbl period with
  | none =>
    [("total_interactions", 0),
     ("avg_handle_time", 0),
     ("avg_wait_time", 0),
     ("first_call_resolution_rate", 0),
     ("customer_satisfaction_score", 0),
     ("total_cost", 0),
     ("cost_per_interaction", 0),
     ("unique_agents", 0),
     ("interactions_per_agent", 0)]
  | some overall =>
    let agent_df := get_agent_metrics agentTbl period
    let unique_agents : ℕ :=
      if agent_df.isEmpty then 0 else (agent_df.map (·.agent_id)).dedup.length
    let interactions_per_agent : ℚ :=
      if unique_agents > 0 then dictGet overall "total_interactions" / unique_agents
      else 0
    [("total_interactions", dictGet overall "total_interactions"),
     ("total_calls", dictGet overall "total_calls"),
     ("total_emails", dictGet overall "total_emails"),
     ("total_chats", dictGet overall "total_chats"),
     ("total_whatsapp", dictGet overall "total_whatsapp"),
     ("avg_handle_time", dictGet overall "avg_handle_time_minutes"),
     ("avg_wait_time", dictGet overall "avg_wait_time_minutes"),
     ("first_call_resolution_rate", dictGet overall "first_call_resolution_rate"),
     ("customer_satisfaction_score", dictGet overall "customer_satisfaction_score"),
     ("total_cost", dictGet overall "total_cost"),
     ("cost_per_interaction", dictGet overall "cost_per_interaction"),
     ("unique_agents", (unique_agents : ℚ)),
     ("interactions_per_agent", round2 interactions_per_agent)]

/-- Embedding of MetricLoader.get_trend_data
(analytics/utils/metric_loader.py, lines 301-322): empty when the
metric is not a column of the overall table; otherwise the rows are
sorted by period key descending, the first num_periods rows are kept
(DataFrame.head), re-sorted ascending, and projected to (period key,
metric value) pairs. -/
def get_trend_data (tbl : OverallTable) (metric_name : String)
    (num_periods : ℕ) : List (ℤ × ℚ) :=
  if metric_name ∈ tbl.cols then
    (sortRowsAsc ((sortRowsDesc tbl.rows).take num_periods)).map
      (fun r => (r.key, dictGet r.fields metric_name))
  else []

/-! The Record Store: DataLoader's cache and table loading. -/

/-- The four table kinds DataLoader loads (overall/agent/channel/calls),
each backed by one CSV file per granularity. -/
inductive TableName where
  | overall : TableName
  | agent : TableName
  | channel : TableName
  | calls : TableName
deriving DecidableEq

/-- The mutable state of a DataLoader: the active granularity and the
cache dict, keyed like the source's f-string keys by table name and
granularity. -/
structure LoaderState (α : Type) where
  period : Granularity
  cache : List ((TableName × Granularity) × α)

/-- Embedding of the four identical DataLoader.load_*_data methods
(analytics/utils/data_loader.py, lines 47-162), which differ only in
table name and file path. The backing storage is the map files (none
when the CSV file for that granularity and table does not exist, in
which case the load raises FileNotFoundError, modelled as error). On a
cache hit and no force_reload the cached table is returned unchanged
and storage is not read; otherwise the table is read from storage,
date columns already parsed, and stored in the cache. The returned
Bool records whether backing storage was read. -/
def load_table {α : Type} (files : Granularity → TableName → Option α)
    (s : LoaderState α) (t : TableName) (force_reload : Bool) :
    Except String (α × LoaderState α × Bool) :=
  match List.lookup (t, s.period) s.cache, force_reload with
  | some df, false => Except.ok (df, s, false)
  | _, _ =>
    match files s.period t with
    | none => Except.error "data file not found"
    | some df =>
      Except.ok (df, { s with cache := ((t, s.period), df) :: s.cache }, true)

/-- Embedding of DataLoader.clear_cache
(analytics/utils/data_loader.py, lines 164-166). -/
def clear_cache {α : Type} (s : LoaderState α) : LoaderState α :=
  { s with cache := [] }

/-- Embedding of DataLoader.set_period
(analytics/utils/data_loader.py, lines 35-45): switches granularity
and clears the cache. -/
def set_period {α : Type} (_s : LoaderState α) (g : Granularity) :
    LoaderState α :=
  { period := g, cache := [] }

/-- A loaded DataFrame as validate_data_integrity sees it: its column
list and its rows (only emptiness of the rows matters). -/
structure Frame where
  cols : List String
  frameRows : List (List ℚ)
deriving DecidableEq

/-- The required-column schema of DataLoader.validate_data_integrity
(analytics/utils/data_loader.py, lines 209-214). -/
def required_columns : List (String × List String) :=
  [("overall", ["total_interactions", "total_cost"]),
   ("agent", ["agent_id", "agent_name", "total_interactions"]),
   ("channel", ["channel", "total_interactions"]),
   ("calls", ["call_id", "agent_id", "date", "duration_minutes"])]

/-- Embedding of the static method DataLoader.validate_data_integrity
(analytics/utils/data_loader.py, lines 194-226): error on an unknown
data type, on any missing required column, or on an empty table;
True otherwise. The errors model the ValueError exceptions raised. -/
def validate_data_integrity (df : Frame) (data_type : String) :
    Except String Bool :=
  match List.lookup data_type required_columns with
  | none => Except.error "Unknown data type"
  | some required =>
    if required.filter (fun c => ¬ (c ∈ df.cols)) ≠ [] then
      Except.error "Missing required columns"
    else if df.frameRows = [] then
      Except.error "No data found"
    else
      Except.ok true

instance : IsTotal OverallRow (fun a b => a.key ≥ b.key) :=
  ⟨fun a b => le_total b.key a.key⟩

instance : IsTrans OverallRow (fun a b => a.key ≥ b.key) :=
  ⟨fun _ _ _ h1 h2 => le_trans h2 h1⟩

instance : IsTotal OverallRow (fun a b => a.key ≤ b.key) :=
  ⟨fun a b => le_total a.key b.key⟩

instance : IsTrans OverallRow (fun a b => a.key ≤ b.key) :=
  ⟨fun _ _ _ h1 h2 => le_trans h1 h2⟩

/-! Helper lemmas. -/

lemma roundHalfEvenQ_intCast (n : ℤ) : roundHalfEvenQ (n : ℚ) = n := by
  unfold roundHalfEvenQ
  rw [Int.floor_intCast]
  norm_num

lemma round2_of_mul_intCast (q : ℚ) (n : ℤ) (h : q * 100 = (n : ℚ)) :
    round2 q = q := by
  unfold round2
  rw [h, roundHalfEvenQ_intCast, ← h]
  field_simp

lemma round2_zero : round2 0 = 0 := round2_of_mul_intCast 0 0 (by norm_num)

lemma calculate_deltas_nil (previous : Snapshot) :
    calculate_deltas [] previous = [] := rfl

lemma calculate_deltas_cons_ne (k : String) (c p : ℚ) (rest previous : Snapshot)
    (hp : (List.lookup k previous).getD (PyVal.num 0) = PyVal.num p)
    (h : ¬ p = 0) :
    calculate_deltas ((k, PyVal.num c) :: rest) previous =
      (k, { value := c - p, percentage := round2 ((c - p) / p * 100),
            trend := if c - p > 0 then Trend.up
                     else if c - p < 0 then Trend.down else Trend.flat })
        :: calculate_deltas rest previous := by
  simp [calculate_deltas, hp, h]

lemma calculate_deltas_cons_zero (k : String) (c : ℚ) (rest previous : Snapshot)
    (hp : (List.lookup k previous).getD (PyVal.num 0) = PyVal.num 0) :
    calculate_deltas ((k, PyVal.num c) :: rest) previous =
      (k, { value := c, percentage := 0, trend := Trend.flat })
        :: calculate_deltas rest previous := by
  simp [calculate_deltas, hp]

/-- In any association list with pairwise-distinct keys (a Python dict),
two entries with the same key carry the same value. -/
lemma eq_of_mem_of_nodup_keys {α : Type} {l : List (String × α)}
    (h : (l.map Prod.fst).Nodup) {k : String} {v w : α}
    (h1 : (k, v) ∈ l) (h2 : (k, w) ∈ l) : v = w := by
  induction l with
  | nil => cases h1
  | cons a l ih =>
    simp only [List.map_cons, List.nodup_cons] at h
    rcases List.mem_cons.mp h1 with rfl | h1m
    · rcases List.mem_cons.mp h2 with h2e | h2m
      · injection h2e with hk hv; exact hv.symm
      · exact absurd (List.mem_map.mpr ⟨(k, w), h2m, rfl⟩) h.1
    · rcases List.mem_cons.mp h2 with rfl | h2m
      · exact absurd (List.mem_map.mpr ⟨(k, v), h1m, rfl⟩) h.1
      · exact ih h.2 h1m h2m

lemma sortKeysDesc_perm (l : List ℤ) : List.Perm (sortKeysDesc l) l :=
  List.perm_insertionSort _ l

lemma sortKeysDesc_sorted (l : List ℤ) :
    List.Sorted (· ≥ ·) (sortKeysDesc l) :=
  List.sorted_insertionSort _ l

/-- The first element of the descending-sorted period-key column is
the column's maximum. -/
lemma sortKeysDesc_head_of_maximum {l : List ℤ} {m : ℤ}
    (hmax : l.maximum = (m : WithBot ℤ)) :
    ∃ t, sortKeysDesc l = m :: t := by
  rcases List.maximum_eq_coe_iff.mp hmax with ⟨hmem, hle⟩
  have hperm := sortKeysDesc_perm l
  have hsor := sortKeysDesc_sorted l
  cases hs : sortKeysDesc l with
  | nil =>
    rw [hs] at hperm
    rw [hperm.symm.eq_nil] at hmem
    cases hmem
  | cons h t =>
    have hhl : h ∈ l := by
      rw [← hperm.mem_iff, hs]
      exact List.mem_cons_self _ _
    have h1 : h ≤ m := hle h hhl
    have hms : m ∈ sortKeysDesc l := hperm.mem_iff.mpr hmem
    rw [hs] at hms
    rcases List.mem_cons.mp hms with rfl | hmt
    · exact ⟨t, rfl⟩
    · rw [hs] at hsor
      have h2 : m ≤ h := (List.sorted_cons.mp hsor).1 m hmt
      exact ⟨t, by rw [le_antisymm h1 h2]⟩

/-- get_previous_week has the same body as get_previous_month over the
abstract period key. -/
lemma get_previous_week_eq_month (tbl : OverallTable) (cur : ℤ) :
    get_previous_week tbl cur = get_previous_month tbl cur := rfl

/-- Under pairwise-distinct period keys, the previous period of the
maximum key is the second entry of the descending key sequence. -/
lemma get_previous_month_of_max (tbl : OverallTable) (cur : ℤ)
    (hnd : (tbl.rows.map (·.key)).Nodup)
    (hcur : (tbl.rows.map (·.key)).maximum = (cur : WithBot ℤ)) :
    get_previous_month tbl cur =
      some ((sortKeysDesc (tbl.rows.map (·.key))).get? 1) := by
  obtain ⟨t, hs⟩ := sortKeysDesc_head_of_maximum hcur
  have hnd₂ : (sortKeysDesc (tbl.rows.map (·.key))).Nodup :=
    ((sortKeysDesc_perm _).nodup_iff).mpr hnd
  unfold get_previous_month
  rw [List.dedup_eq_self.mpr hnd₂, hs]
  simp [List.findIdx?_cons]

lemma load_table_cache_hit {α : Type} (files : Granularity → TableName → Option α)
    (s : LoaderState α) (t : TableName) (df : α)
    (h : List.lookup (t, s.period) s.cache = some df) :
    load_table files s t false = Except.ok (df, s, false) := by
  unfold load_table
  rw [h]

lemma load_table_cache_miss {α : Type} (files : Granularity → TableName → Option α)
    (s : LoaderState α) (t : TableName) (df : α)
    (hc : List.lookup (t, s.period) s.cache = none)
    (hf : files s.period t = some df) :
    load_table files s t false =
      Except.ok (df, { s with cache := ((t, s.period), df) :: s.cache }, true) := by
  unfold load_table
  rw [hc, hf]

lemma load_table_file_missing {α : Type}
    (files : Granularity → TableName → Option α)
    (s : LoaderState α) (t : TableName)
    (hc : List.lookup (t, s.period) s.cache = none)
    (hf : files s.period t = none) :
    load_table files s t false = Except.error "data file not found" := by
  unfold load_table
  rw [hc, hf]

lemma validate_missing_cols (df : Frame) (dt : String) (required : List String)
    (hreq : List.lookup dt required_columns = some required)
    (hmiss : required.filter (fun c => ¬ (c ∈ df.cols)) ≠ []) :
    validate_data_integrity df dt = Except.error "Missing required columns" := by
  simp only [validate_data_integrity, hreq]
  rw [if_pos hmiss]

lemma validate_empty (df : Frame) (dt : String) (required : List String)
    (hreq : List.lookup dt required_columns = some required)
    (hmiss : required.filter (fun c => ¬ (c ∈ df.cols)) = [])
    (hemp : df.frameRows = []) :
    validate_data_integrity df dt = Except.error "No data found" := by
  simp only [validate_data_integrity, hreq]
  rw [if_neg (fun hc => hc hmiss), if_pos hemp]

lemma validate_ok (df : Frame) (dt : String) (required : List String)
    (hreq : List.lookup dt required_columns = some required)
    (hmiss : required.filter (fun c => ¬ (c ∈ df.cols)) = [])
    (hemp : df.frameRows ≠ []) :
    validate_data_integrity df dt = Except.ok true := by
  simp only [validate_data_integrity, hreq]
  rw [if_neg (fun hc => hc hmiss), if_neg hemp]

/-! Claim theorems. -/

/-- C5 (amended): provided the period keys of the loaded overall table
are pairwise distinct (one row per period, the documented shape of the
table), the period sequence returned by get_periods is strictly
descending and duplicate-free, for both granularities. -/
theorem c5_periods_strictly_descending :
    ∀ (g : Granularity) (tbl : OverallTable),
      (tbl.rows.map (·.key)).Nodup →
      List.Sorted (· > ·) (get_periods g tbl) ∧ (get_periods g tbl).Nodup := by
  intro g tbl hnd
  have hnd₂ : (sortKeysDesc (tbl.rows.map (·.key))).Nodup :=
    ((sortKeysDesc_perm _).nodup_iff).mpr hnd
  have hsor : List.Sorted (· ≥ ·) (sortKeysDesc (tbl.rows.map (·.key))) :=
    sortKeysDesc_sorted _
  cases g <;> exact ⟨hsor.gt_of_ge hnd₂, hnd₂⟩

/-- C5 counterexample: get_periods never deduplicates, so an overall
table with two rows for the same period yields the key sequence
[5, 5], which has duplicates and is not strictly descending. -/
theorem c5_duplicates_refuted :
    get_periods Granularity.monthly
        (OverallTable.mk ["month"] [OverallRow.mk 5 [], OverallRow.mk 5 []]) =
      [5, 5] ∧
    ¬ (get_periods Granularity.monthly
        (OverallTable.mk ["month"] [OverallRow.mk 5 [], OverallRow.mk 5 []])).Nodup ∧
    ¬ List.Sorted (· > ·)
        (get_periods Granularity.monthly
          (OverallTable.mk ["month"] [OverallRow.mk 5 [], OverallRow.mk 5 []])) := by
  refine ⟨by decide, by decide, ?_⟩
  decide

/-- C5 witness: the amended statement evaluated on a three-period
table with keys 3, 7, 5. -/
theorem c5_periods_strictly_descending_witness :
    List.Sorted (· > ·)
      (get_periods Granularity.monthly
        (OverallTable.mk ["month"]
          [OverallRow.mk 3 [], OverallRow.mk 7 [], OverallRow.mk 5 []])) ∧
    (get_periods Granularity.monthly
      (OverallTable.mk ["month"]
        [OverallRow.mk 3 [], OverallRow.mk 7 [], OverallRow.mk 5 []])).Nodup :=
  c5_periods_strictly_descending Granularity.monthly _ (by decide)

/-- C6 (amended): provided the period keys of the overall table are
pairwise distinct, when at least two periods exist
previousPeriod(currentPeriod()) is exactly the second entry of
availablePeriods(), for both the monthly and the weekly code path;
when exactly one period exists it is None. -/
theorem c6_previous_is_second_available_period :
    (∀ (tbl : OverallTable) (cur : ℤ),
        (tbl.rows.map (·.key)).Nodup →
        2 ≤ tbl.rows.length →
        get_current_month tbl = (cur : WithBot ℤ) →
        ∃ p₂ : ℤ, (get_periods Granularity.monthly tbl).get? 1 = some p₂ ∧
          get_previous_month tbl cur = some (some p₂) ∧
          (get_periods Granularity.weekly tbl).get? 1 = some p₂ ∧
          get_previous_week tbl cur = some (some p₂)) ∧
    (∀ (tbl : OverallTable) (cur : ℤ),
        tbl.rows.length = 1 →
        get_current_month tbl = (cur : WithBot ℤ) →
        get_previous_month tbl cur = some none ∧
        get_previous_week tbl cur = some none) := by
  constructor
  · intro tbl cur hnd hlen hcur
    have hlen₂ : 1 < (sortKeysDesc (tbl.rows.map (·.key))).length := by
      rw [(sortKeysDesc_perm _).length_eq, List.length_map]
      omega
    obtain ⟨p₂, hp₂⟩ : ∃ p₂, (sortKeysDesc (tbl.rows.map (·.key))).get? 1 = some p₂ :=
      ⟨_, List.get?_eq_get hlen₂⟩
    refine ⟨p₂, hp₂, ?_, hp₂, ?_⟩
    · rw [get_previous_month_of_max tbl cur hnd hcur, hp₂]
    · rw [get_previous_week_eq_month,
          get_previous_month_of_max tbl cur hnd hcur, hp₂]
  · intro tbl cur hlen hcur
    have hnd : (tbl.rows.map (·.key)).Nodup := by
      obtain ⟨r, hr⟩ := List.length_eq_one.mp hlen
      rw [hr]
      exact List.nodup_singleton _
    have hnone : (sortKeysDesc (tbl.rows.map (·.key))).get? 1 = none := by
      apply List.get?_eq_none.mpr
      rw [(sortKeysDesc_perm _).length_eq, List.length_map]
      omega
    constructor
    · rw [get_previous_month_of_max tbl cur hnd hcur, hnone]
    · rw [get_previous_week_eq_month,
          get_previous_month_of_max tbl cur hnd hcur, hnone]

/-- C6 counterexample: with duplicate period keys (two rows for period
5, one for period 3) the second entry of availablePeriods() is the
duplicated 5, while get_previous_month of the current period returns 3,
so the claimed equality fails on such a table. -/
theorem c6_duplicate_keys_refuted :
    get_current_month
        (OverallTable.mk ["month"]
          [OverallRow.mk 5 [], OverallRow.mk 5 [], OverallRow.mk 3 []]) =
      ((5 : ℤ) : WithBot ℤ) ∧
    (get_periods Granularity.monthly
        (OverallTable.mk ["month"]
          [OverallRow.mk 5 [], OverallRow.mk 5 [], OverallRow.mk 3 []])).get? 1 =
      some 5 ∧
    get_previous_month
        (OverallTable.mk ["month"]
          [OverallRow.mk 5 [], OverallRow.mk 5 [], OverallRow.mk 3 []]) 5 =
      some (some 3) ∧
    some (some (3 : ℤ)) ≠ some (some (5 : ℤ)) := by
  refine ⟨by decide, by decide, by decide, by decide⟩

/-- C6 witness: the amended statement evaluated on a two-period table
with keys 7 and 4, and on a one-period table with key 9. -/
theorem c6_previous_is_second_available_period_witness :
    (∃ p₂ : ℤ,
      (get_periods Granularity.monthly
        (OverallTable.mk ["month"] [OverallRow.mk 4 [], OverallRow.mk 7 []])).get? 1 =
        some p₂ ∧
      get_previous_month
        (OverallTable.mk ["month"] [OverallRow.mk 4 [], OverallRow.mk 7 []]) 7 =
        some (some p₂) ∧
      (get_periods Granularity.weekly
        (OverallTable.mk ["month"] [OverallRow.mk 4 [], OverallRow.mk 7 []])).get? 1 =
        some p₂ ∧
      get_previous_week
        (OverallTable.mk ["month"] [OverallRow.mk 4 [], OverallRow.mk 7 []]) 7 =
        some (some p₂)) ∧
    (get_previous_month (OverallTable.mk ["month"] [OverallRow.mk 9 []]) 9 =
        some none ∧
      get_previous_week (OverallTable.mk ["month"] [OverallRow.mk 9 []]) 9 =
        some none) :=
  ⟨c6_previous_is_second_available_period.1 _ 7 (by decide) (by decide) (by decide),
   c6_previous_is_second_available_period.2 _ 9 (by decide) (by decide)⟩

/-- C1 (amended): for every key present in both snapshots with numeric
values and nonzero previous value, calculate_deltas emits an entry with
value equal to the exact difference, percentage equal to
100 * value / previous rounded to two decimal places, and trend up/
down/flat by the sign of the value; on the Feb 2025 versus Jan 2025
snapshots the delta on total_interactions is value 100, percentage 10,
trend up, and on total_cost value 500, percentage 10, trend up. -/
theorem c1_delta_formula_rounded :
    (∀ (current previous : Snapshot) (k : String) (c p : ℚ),
        (k, PyVal.num c) ∈ current →
        List.lookup k previous = some (PyVal.num p) → p ≠ 0 →
        (k, { value := c - p, percentage := round2 (100 * (c - p) / p),
              trend := if c - p > 0 then Trend.up
                       else if c - p < 0 then Trend.down else Trend.flat })
          ∈ calculate_deltas current previous) ∧
    calculate_deltas
        [("total_interactions", PyVal.num 1100), ("total_cost", PyVal.num 5500)]
        [("total_interactions", PyVal.num 1000), ("total_cost", PyVal.num 5000)] =
      [("total_interactions", { value := 100, percentage := 10, trend := Trend.up }),
       ("total_cost", { value := 500, percentage := 10, trend := Trend.up })] := by
  constructor
  · intro current previous k c p hmem hlook hp
    apply List.mem_filterMap.mpr
    refine ⟨(k, PyVal.num c), hmem, ?_⟩
    have h100 : (c - p) / p * 100 = 100 * (c - p) / p := by ring
    simp [hlook, hp, h100]
  · rw [calculate_deltas_cons_ne "total_interactions" 1100 1000 _ _ (by decide) (by decide),
        calculate_deltas_cons_ne "total_cost" 5500 5000 _ _ (by decide) (by decide),
        calculate_deltas_nil]
    have h10 : round2 10 = 10 := round2_of_mul_intCast 10 1000 (by norm_num)
    norm_num [h10]

/-- C1 counterexample: as literally stated the claim asks for the exact
percentage 100 * value / previous, but on current m=1 versus previous
m=3 the code returns the rounded percentage -66.67, which differs from
the exact quotient 100 * (1 - 3) / 3. -/
theorem c1_exact_percentage_refuted :
    calculate_deltas [("m", PyVal.num 1)] [("m", PyVal.num 3)] =
      [("m", { value := -2, percentage := -6667/100, trend := Trend.down })] ∧
    (-6667/100 : ℚ) ≠ 100 * (1 - 3) / 3 := by
  constructor
  · rw [calculate_deltas_cons_ne "m" 1 3 _ _ (by decide) (by decide),
        calculate_deltas_nil]
    have harg : ((1:ℚ) - 3)/3*100 = -200/3 := by norm_num
    have hm : ((-200:ℚ)/3) * 100 = -20000/3 := by norm_num
    have hfl : ⌊(-20000:ℚ)/3⌋ = (-6667 : ℤ) := by
      rw [Int.floor_eq_iff]
      norm_num
    have h2 : round2 ((-200:ℚ)/3) = -6667/100 := by
      unfold round2 roundHalfEvenQ
      rw [hm, hfl]
      norm_num
    rw [harg, h2]
    norm_num
  · norm_num

/-- C1 witness: the amended universal statement applied to the Feb/Jan
total_interactions key. -/
theorem c1_delta_formula_rounded_witness :
    ("total_interactions",
      { value := (1100:ℚ) - 1000,
        percentage := round2 (100 * ((1100:ℚ) - 1000) / 1000),
        trend := if (1100:ℚ) - 1000 > 0 then Trend.up
                 else if (1100:ℚ) - 1000 < 0 then Trend.down else Trend.flat })
      ∈ calculate_deltas
        [("total_interactions", PyVal.num 1100), ("total_cost", PyVal.num 5500)]
        [("total_interactions", PyVal.num 1000), ("total_cost", PyVal.num 5000)] :=
  c1_delta_formula_rounded.1 _ _ _ 1100 1000 (List.Mem.head _) (by decide) (by decide)

/-- C2 (amended): for a key with numeric current value, if the key is
absent from the previous snapshot or its previous value is exactly 0,
calculate_deltas emits the entry value = current, percentage = 0,
trend flat (and, being a total function, raises no exception); but if
the previous value is non-numeric the key is skipped entirely and no
entry is produced for it. -/
theorem c2_zero_and_missing_previous :
    (∀ (current previous : Snapshot) (k : String) (c : ℚ),
        (k, PyVal.num c) ∈ current →
        List.lookup k previous = none →
        (k, { value := c, percentage := 0, trend := Trend.flat })
          ∈ calculate_deltas current previous) ∧
    (∀ (current previous : Snapshot) (k : String) (c : ℚ),
        (k, PyVal.num c) ∈ current →
        List.lookup k previous = some (PyVal.num 0) →
        (k, { value := c, percentage := 0, trend := Trend.flat })
          ∈ calculate_deltas current previous) ∧
    (∀ (current previous : Snapshot) (k : String) (c : ℚ) (s : String),
        (current.map Prod.fst).Nodup →
        (k, PyVal.num c) ∈ current →
        List.lookup k previous = some (PyVal.str s) →
        ∀ e : DeltaEntry, (k, e) ∉ calculate_deltas current previous) := by
  refine ⟨?_, ?_, ?_⟩
  · intro current previous k c hmem hlook
    exact List.mem_filterMap.mpr ⟨(k, PyVal.num c), hmem, by simp [hlook]⟩
  · intro current previous k c hmem hlook
    exact List.mem_filterMap.mpr ⟨(k, PyVal.num c), hmem, by simp [hlook]⟩
  · intro current previous k c s hnd hmem hlook e hout
    obtain ⟨⟨k₂, v⟩, ha, hfa⟩ := List.mem_filterMap.mp hout
    cases v with
    | num c₂ =>
      cases hv : (List.lookup k₂ previous).getD (PyVal.num 0) with
      | num p =>
        simp only [hv] at hfa
        have hk : k₂ = k := by
          by_cases hpz : p = 0 <;> simp [hpz] at hfa <;> exact hfa.1
        subst hk
        rw [hlook] at hv
        exact PyVal.noConfusion (Option.getD_some ▸ hv)
      | str s₂ => simp [hv] at hfa
    | str s₂ =>
      cases hv : (List.lookup k₂ previous).getD (PyVal.num 0) <;> simp [hv] at hfa

/-- C2 counterexample: the claim as stated also promises a zero/flat
entry when the previous value is non-numeric, but on current k=5,
previous k="x" the code emits no entry for k at all. -/
theorem c2_nonnumeric_previous_refuted :
    calculate_deltas [("k", PyVal.num 5)] [("k", PyVal.str "x")] = [] ∧
    ("k", { value := 5, percentage := 0, trend := Trend.flat })
      ∉ calculate_deltas [("k", PyVal.num 5)] [("k", PyVal.str "x")] := by
  constructor
  · decide
  · decide

/-- C2 witness: the amended statement applied to a key absent from the
previous snapshot and to a key with previous value 0. -/
theorem c2_zero_and_missing_previous_witness :
    ("a", { value := 7, percentage := 0, trend := Trend.flat })
      ∈ calculate_deltas [("a", PyVal.num 7)] [] ∧
    ("b", { value := 50, percentage := 0, trend := Trend.flat })
      ∈ calculate_deltas [("b", PyVal.num 50)] [("b", PyVal.num 0)] :=
  ⟨c2_zero_and_missing_previous.1 _ _ _ 7 (List.Mem.head _) (by decide),
   c2_zero_and_missing_previous.2.1 _ _ _ 50 (List.Mem.head _) (by decide)⟩

/-- C10: for every key numeric in both snapshots with nonzero previous
value, the percentage emitted by calculate_deltas is the quotient
100 * (current - previous) / previous rounded to two decimal places,
while the value component is the exact difference. -/
theorem c10_percentage_rounded_two_decimals :
    ∀ (current previous : Snapshot) (k : String) (c p : ℚ),
      (k, PyVal.num c) ∈ current →
      List.lookup k previous = some (PyVal.num p) → p ≠ 0 →
      ∃ e : DeltaEntry, (k, e) ∈ calculate_deltas current previous ∧
        e.value = c - p ∧ e.percentage = round2 (100 * (c - p) / p) := by
  intro current previous k c p hmem hlook hp
  refine ⟨{ value := c - p, percentage := round2 (100 * (c - p) / p),
            trend := if c - p > 0 then Trend.up
                     else if c - p < 0 then Trend.down else Trend.flat },
          List.mem_filterMap.mpr ⟨(k, PyVal.num c), hmem, ?_⟩, rfl, rfl⟩
  have h100 : (c - p) / p * 100 = 100 * (c - p) / p := by ring
  simp [hlook, hp, h100]

/-- C10 witness: the rounding statement applied to current m=1,
previous m=3. -/
theorem c10_percentage_rounded_two_decimals_witness :
    ∃ e : DeltaEntry,
      ("m", e) ∈ calculate_deltas [("m", PyVal.num 1)] [("m", PyVal.num 3)] ∧
      e.value = (1:ℚ) - 3 ∧ e.percentage = round2 (100 * ((1:ℚ) - 3) / 3) :=
  c10_percentage_rounded_two_decimals _ _ _ 1 3 (List.Mem.head _) (by decide)
    (by decide)

/-- C3 (amended): each branch of calculate_productivity_metrics has a
fixed field list, but the two differ: when no overall row exists for
the period the result is the nine-field snapshot with every field
zero (no error is raised); when a row exists the result has the
thirteen fields including the four per-channel totals. -/
theorem c3_zero_snapshot_and_fixed_fields :
    (∀ (overallTbl : OverallTable) (agentTbl : List AgentRow) (period : ℤ),
        get_overall_metrics overallTbl period = none →
        calculate_productivity_metrics overallTbl agentTbl period =
          [("total_interactions", 0),
           ("avg_handle_time", 0),
           ("avg_wait_time", 0),
           ("first_call_resolution_rate", 0),
           ("customer_satisfaction_score", 0),
           ("total_cost", 0),
           ("cost_per_interaction", 0),
           ("unique_agents", 0),
           ("interactions_per_agent", 0)]) ∧
    (∀ (overallTbl : OverallTable) (agentTbl : List AgentRow) (period : ℤ)
        (ov : List (String × ℚ)),
        get_overall_metrics overallTbl period = some ov →
        (calculate_productivity_metrics overallTbl agentTbl period).map Prod.fst =
          ["total_interactions", "total_calls", "total_emails", "total_chats",
           "total_whatsapp", "avg_handle_time", "avg_wait_time",
           "first_call_resolution_rate", "customer_satisfaction_score",
           "total_cost", "cost_per_interaction", "unique_agents",
           "interactions_per_agent"]) := by
  constructor
  · intro overallTbl agentTbl period hov
    simp [calculate_productivity_metrics, hov]
  · intro overallTbl agentTbl period ov hov
    simp [calculate_productivity_metrics, hov]

/-- C3 counterexample: the field set is not the same regardless of
input: with no overall row the snapshot has nine fields, with a row it
has thirteen (the per-channel totals are absent from the zeroed one). -/
theorem c3_same_field_set_refuted :
    (calculate_productivity_metrics (OverallTable.mk ["month"] []) [] 0).map
        Prod.fst =
      ["total_interactions", "avg_handle_time", "avg_wait_time",
       "first_call_resolution_rate", "customer_satisfaction_score",
       "total_cost", "cost_per_interaction", "unique_agents",
       "interactions_per_agent"] ∧
    (calculate_productivity_metrics
        (OverallTable.mk ["month"] [OverallRow.mk 0 []]) [] 0).map Prod.fst =
      ["total_interactions", "total_calls", "total_emails", "total_chats",
       "total_whatsapp", "avg_handle_time", "avg_wait_time",
       "first_call_resolution_rate", "customer_satisfaction_score",
       "total_cost", "cost_per_interaction", "unique_agents",
       "interactions_per_agent"] ∧
    (calculate_productivity_metrics (OverallTable.mk ["month"] []) [] 0).map
        Prod.fst ≠
      (calculate_productivity_metrics
        (OverallTable.mk ["month"] [OverallRow.mk 0 []]) [] 0).map Prod.fst := by
  refine ⟨by decide, by decide, by decide⟩

/-- C3 witness: the amended statement evaluated on an empty overall
table (zero branch) and on a one-row table (full branch). -/
theorem c3_zero_snapshot_and_fixed_fields_witness :
    calculate_productivity_metrics (OverallTable.mk ["month"] []) [] 0 =
      [("total_interactions", 0),
       ("avg_handle_time", 0),
       ("avg_wait_time", 0),
       ("first_call_resolution_rate", 0),
       ("customer_satisfaction_score", 0),
       ("total_cost", 0),
       ("cost_per_interaction", 0),
       ("unique_agents", 0),
       ("interactions_per_agent", 0)] ∧
    (calculate_productivity_metrics
        (OverallTable.mk ["month"] [OverallRow.mk 0 []]) [] 0).map Prod.fst =
      ["total_interactions", "total_calls", "total_emails", "total_chats",
       "total_whatsapp", "avg_handle_time", "avg_wait_time",
       "first_call_resolution_rate", "customer_satisfaction_score",
       "total_cost", "cost_per_interaction", "unique_agents",
       "interactions_per_agent"] :=
  ⟨c3_zero_snapshot_and_fixed_fields.1 _ [] 0 (by decide),
   c3_zero_snapshot_and_fixed_fields.2 _ [] 0 [] (by decide)⟩

/-- C4: when the overall row exists but no agent row matches the
period, the snapshot reports unique_agents = 0 and
interactions_per_agent = 0; more generally, whenever the distinct
agent count is zero the guarded division is skipped and
interactions_per_agent is 0, so no division by zero ever occurs. -/
theorem c4_no_agents_no_division :
    (∀ (overallTbl : OverallTable) (agentTbl : List AgentRow) (period : ℤ)
        (ov : List (String × ℚ)),
        get_overall_metrics overallTbl period = some ov →
        get_agent_metrics agentTbl period = [] →
        List.lookup "unique_agents"
            (calculate_productivity_metrics overallTbl agentTbl period) = some 0 ∧
        List.lookup "interactions_per_agent"
            (calculate_productivity_metrics overallTbl agentTbl period) = some 0) ∧
    (∀ (overallTbl : OverallTable) (agentTbl : List AgentRow) (period : ℤ)
        (ov : List (String × ℚ)),
        get_overall_metrics overallTbl period = some ov →
        ((get_agent_metrics agentTbl period).map (·.agent_id)).dedup.length = 0 →
        List.lookup "interactions_per_agent"
            (calculate_productivity_metrics overallTbl agentTbl period) = some 0) := by
  constructor
  · intro overallTbl agentTbl period ov hov hagents
    constructor <;>
      simp [calculate_productivity_metrics, hov, hagents, List.lookup, round2_zero]
  · intro overallTbl agentTbl period ov hov hcount
    by_cases hemp : (get_agent_metrics agentTbl period).isEmpty <;>
      simp [calculate_productivity_metrics, hov, hemp, hcount, List.lookup,
        round2_zero]

/-- C4 witness: a one-row overall table for period 0 with an agent
table whose only row belongs to another period. -/
theorem c4_no_agents_no_division_witness :
    List.lookup "unique_agents"
        (calculate_productivity_metrics
          (OverallTable.mk ["month"] [OverallRow.mk 0 []])
          [AgentRow.mk 1 77 []] 0) = some 0 ∧
    List.lookup "interactions_per_agent"
        (calculate_productivity_metrics
          (OverallTable.mk ["month"] [OverallRow.mk 0 []])
          [AgentRow.mk 1 77 []] 0) = some 0 :=
  c4_no_agents_no_division.1 _ [AgentRow.mk 1 77 []] 0 [] (by decide) (by decide)

/-- C7: for a metric that is a column of the overall table,
get_trend_data returns exactly min(periodCount, number of rows)
entries, ascending by period key, and the selected entries are the
most recent ones: the keys left out are all no larger than every
selected key. On the five-period example table, requesting 12 periods
of total_cost returns all five entries ascending with their values. -/
theorem c7_trend_window :
    (∀ (tbl : OverallTable) (metric : String) (n : ℕ),
        metric ∈ tbl.cols →
        (get_trend_data tbl metric n).length = min n tbl.rows.length ∧
        List.Sorted (fun a b => a.1 ≤ b.1) (get_trend_data tbl metric n) ∧
        ∃ leftOut : List ℤ,
          List.Perm ((get_trend_data tbl metric n).map Prod.fst ++ leftOut)
            (tbl.rows.map (·.key)) ∧
          ∀ b ∈ leftOut, ∀ a ∈ (get_trend_data tbl metric n).map Prod.fst,
            b ≤ a) ∧
    get_trend_data
        (OverallTable.mk ["month", "total_cost"]
          [OverallRow.mk 3 [("total_cost", 5)],
           OverallRow.mk 1 [("total_cost", 9)],
           OverallRow.mk 5 [("total_cost", 2)],
           OverallRow.mk 4 [("total_cost", 7)],
           OverallRow.mk 2 [("total_cost", 4)]])
        "total_cost" 12 =
      [(1, 9), (2, 4), (3, 5), (4, 7), (5, 2)] := by
  constructor
  · intro tbl metric n hc
    have hunf : get_trend_data tbl metric n =
        (sortRowsAsc ((sortRowsDesc tbl.rows).take n)).map
          (fun r => (r.key, dictGet r.fields metric)) := by
      simp [get_trend_data, hc]
    have hascperm : List.Perm (sortRowsAsc ((sortRowsDesc tbl.rows).take n))
        ((sortRowsDesc tbl.rows).take n) := List.perm_insertionSort _ _
    have hdescperm : List.Perm (sortRowsDesc tbl.rows) tbl.rows :=
      List.perm_insertionSort _ _
    refine ⟨?_, ?_, ?_⟩
    · rw [hunf, List.length_map, hascperm.length_eq, List.length_take,
        hdescperm.length_eq]
    · rw [hunf]
      have hasc : List.Sorted (fun a b : OverallRow => a.key ≤ b.key)
          (sortRowsAsc ((sortRowsDesc tbl.rows).take n)) :=
        List.sorted_insertionSort _ _
      exact List.Pairwise.map _ (fun a b h => h) hasc
    · refine ⟨((sortRowsDesc tbl.rows).drop n).map (·.key), ?_, ?_⟩
      · have h1 : List.Perm
            ((get_trend_data tbl metric n).map Prod.fst)
            (((sortRowsDesc tbl.rows).take n).map (·.key)) := by
          rw [hunf, List.map_map]
          exact hascperm.map _
        refine (h1.append_right _).trans ?_
        rw [← List.map_append, List.take_append_drop]
        exact hdescperm.map _
      · intro b hb a ha
        have hdesc : List.Sorted (fun a b : OverallRow => a.key ≥ b.key)
            (sortRowsDesc tbl.rows) := List.sorted_insertionSort _ _
        rw [← List.take_append_drop n (sortRowsDesc tbl.rows)] at hdesc
        have hrel := (List.pairwise_append.mp hdesc).2.2
        obtain ⟨rb, hrb, rfl⟩ := List.mem_map.mp hb
        rw [hunf, List.map_map] at ha
        obtain ⟨ra, hra, rfl⟩ := List.mem_map.mp ha
        have hra₂ : ra ∈ (sortRowsDesc tbl.rows).take n := hascperm.mem_iff.mp hra
        exact hrel ra hra₂ rb hrb
  · decide

/-- C7 witness: the window statement evaluated on the five-period
example table with a twelve-period request. -/
theorem c7_trend_window_witness :
    (get_trend_data
        (OverallTable.mk ["month", "total_cost"]
          [OverallRow.mk 3 [("total_cost", 5)],
           OverallRow.mk 1 [("total_cost", 9)],
           OverallRow.mk 5 [("total_cost", 2)],
           OverallRow.mk 4 [("total_cost", 7)],
           OverallRow.mk 2 [("total_cost", 4)]])
        "total_cost" 12).length = min 12 5 ∧
    List.Sorted (fun a b => a.1 ≤ b.1)
      (get_trend_data
        (OverallTable.mk ["month", "total_cost"]
          [OverallRow.mk 3 [("total_cost", 5)],
           OverallRow.mk 1 [("total_cost", 9)],
           OverallRow.mk 5 [("total_cost", 2)],
           OverallRow.mk 4 [("total_cost", 7)],
           OverallRow.mk 2 [("total_cost", 4)]])
        "total_cost" 12) ∧
    ∃ leftOut : List ℤ,
      List.Perm
        ((get_trend_data
          (OverallTable.mk ["month", "total_cost"]
            [OverallRow.mk 3 [("total_cost", 5)],
             OverallRow.mk 1 [("total_cost", 9)],
             OverallRow.mk 5 [("total_cost", 2)],
             OverallRow.mk 4 [("total_cost", 7)],
             OverallRow.mk 2 [("total_cost", 4)]])
          "total_cost" 12).map Prod.fst ++ leftOut)
        ((OverallTable.mk ["month", "total_cost"]
          [OverallRow.mk 3 [("total_cost", 5)],
           OverallRow.mk 1 [("total_cost", 9)],
           OverallRow.mk 5 [("total_cost", 2)],
           OverallRow.mk 4 [("total_cost", 7)],
           OverallRow.mk 2 [("total_cost", 4)]]).rows.map (·.key)) ∧
      ∀ b ∈ leftOut, ∀ a ∈ (get_trend_data
          (OverallTable.mk ["month", "total_cost"]
            [OverallRow.mk 3 [("total_cost", 5)],
             OverallRow.mk 1 [("total_cost", 9)],
             OverallRow.mk 5 [("total_cost", 2)],
             OverallRow.mk 4 [("total_cost", 7)],
             OverallRow.mk 2 [("total_cost", 4)]])
          "total_cost" 12).map Prod.fst, b ≤ a :=
  c7_trend_window.1 _ "total_cost" 12 (by decide)

/-- C8 (amended): a validate_data_integrity checker exists with the
documented behavior — error when a required column is missing, error
when the table is empty, True otherwise — but the load functions never
invoke it: a load succeeds whenever the backing file exists,
regardless of the table's columns or emptiness, and the only load
failure mode is a missing file. -/
theorem c8_schema_checker_not_invoked_on_load :
    (∀ (df : Frame) (dt : String) (required : List String),
        List.lookup dt required_columns = some required →
        (required.filter (fun c => ¬ (c ∈ df.cols)) ≠ [] →
          validate_data_integrity df dt =
            Except.error "Missing required columns") ∧
        (required.filter (fun c => ¬ (c ∈ df.cols)) = [] → df.frameRows = [] →
          validate_data_integrity df dt = Except.error "No data found") ∧
        (required.filter (fun c => ¬ (c ∈ df.cols)) = [] → df.frameRows ≠ [] →
          validate_data_integrity df dt = Except.ok true)) ∧
    (∀ (files : Granularity → TableName → Option Frame) (s : LoaderState Frame)
        (t : TableName) (df : Frame),
        List.lookup (t, s.period) s.cache = none →
        files s.period t = some df →
        load_table files s t false =
          Except.ok (df, { s with cache := ((t, s.period), df) :: s.cache },
            true)) := by
  constructor
  · intro df dt required hreq
    exact ⟨validate_missing_cols df dt required hreq,
      validate_empty df dt required hreq,
      validate_ok df dt required hreq⟩
  · intro files s t df hcache hfile
    exact load_table_cache_miss files s t df hcache hfile

/-- C8 counterexample: an overall table missing the required
total_cost column is rejected by validate_data_integrity, yet
load_table returns it successfully — loads perform no schema check,
so the claimed SchemaError on load never happens. -/
theorem c8_load_validates_refuted :
    validate_data_integrity
        (Frame.mk ["month", "total_interactions"] [[1]]) "overall" =
      Except.error "Missing required columns" ∧
    load_table
        (fun _ _ => some (Frame.mk ["month", "total_interactions"] [[1]]))
        (LoaderState.mk Granularity.monthly []) TableName.overall false =
      Except.ok (Frame.mk ["month", "total_interactions"] [[1]],
        LoaderState.mk Granularity.monthly
          [((TableName.overall, Granularity.monthly),
            Frame.mk ["month", "total_interactions"] [[1]])],
        true) := by
  exact ⟨rfl, rfl⟩

/-- C8 witness: the amended statement evaluated on the schema-invalid
frame above, on an empty frame, on a valid frame, and on a load with
an empty cache. -/
theorem c8_schema_checker_not_invoked_on_load_witness :
    validate_data_integrity
        (Frame.mk ["month", "total_interactions"] [[1]]) "overall" =
      Except.error "Missing required columns" ∧
    validate_data_integrity
        (Frame.mk ["total_interactions", "total_cost"] []) "overall" =
      Except.error "No data found" ∧
    validate_data_integrity
        (Frame.mk ["total_interactions", "total_cost"] [[1, 2]]) "overall" =
      Except.ok true ∧
    load_table
        (fun _ _ => some (Frame.mk ["month", "total_interactions"] [[1]]))
        (LoaderState.mk Granularity.monthly []) TableName.overall false =
      Except.ok (Frame.mk ["month", "total_interactions"] [[1]],
        LoaderState.mk Granularity.monthly
          [((TableName.overall, Granularity.monthly),
            Frame.mk ["month", "total_interactions"] [[1]])],
        true) :=
  ⟨(c8_schema_checker_not_invoked_on_load.1
        (Frame.mk ["month", "total_interactions"] [[1]]) "overall"
        ["total_interactions", "total_cost"] (by decide)).1 (by decide),
   (c8_schema_checker_not_invoked_on_load.1
        (Frame.mk ["total_interactions", "total_cost"] []) "overall"
        ["total_interactions", "total_cost"] (by decide)).2.1
      (by decide) (by decide),
   (c8_schema_checker_not_invoked_on_load.1
        (Frame.mk ["total_interactions", "total_cost"] [[1, 2]]) "overall"
        ["total_interactions", "total_cost"] (by decide)).2.2
      (by decide) (by decide),
   c8_schema_checker_not_invoked_on_load.2 _ _ TableName.overall _ (by decide)
      (by decide)⟩

/-- C9: a second load of the same table without an intervening
invalidation returns exactly the cached table from the first call and
does not read backing storage; after clear_cache, and likewise after a
set_period granularity switch (which clears the cache), the next load
reads from storage again. -/
theorem c9_cache_round_trip :
    (∀ (α : Type) (files : Granularity → TableName → Option α)
        (s : LoaderState α) (t : TableName) (df : α) (s₂ : LoaderState α)
        (r : Bool),
        load_table files s t false = Except.ok (df, s₂, r) →
        load_table files s₂ t false = Except.ok (df, s₂, false)) ∧
    (∀ (α : Type) (files : Granularity → TableName → Option α)
        (s : LoaderState α) (t : TableName) (df : α),
        files s.period t = some df →
        ∃ s₂, load_table files (clear_cache s) t false =
          Except.ok (df, s₂, true)) ∧
    (∀ (α : Type) (files : Granularity → TableName → Option α)
        (s : LoaderState α) (g : Granularity) (t : TableName) (df : α),
        files g t = some df →
        ∃ s₂, load_table files (set_period s g) t false =
          Except.ok (df, s₂, true)) := by
  refine ⟨?_, ?_, ?_⟩
  · intro α files s t df s₂ r hload
    cases hcl : List.lookup (t, s.period) s.cache with
    | some df₀ =>
      rw [load_table_cache_hit files s t df₀ hcl] at hload
      simp only [Except.ok.injEq, Prod.mk.injEq] at hload
      obtain ⟨rfl, rfl, rfl⟩ := hload
      exact load_table_cache_hit files s t df₀ hcl
    | none =>
      cases hf : files s.period t with
      | none =>
        rw [load_table_file_missing files s t hcl hf] at hload
        cases hload
      | some df₀ =>
        rw [load_table_cache_miss files s t df₀ hcl hf] at hload
        simp only [Except.ok.injEq, Prod.mk.injEq] at hload
        obtain ⟨rfl, rfl, rfl⟩ := hload
        exact load_table_cache_hit files _ t df₀ (by simp [List.lookup])
  · intro α files s t df hf
    exact ⟨_, load_table_cache_miss files (clear_cache s) t df rfl hf⟩
  · intro α files s g t df hf
    exact ⟨_, load_table_cache_miss files (set_period s g) t df rfl hf⟩

/-- C9 witness: a concrete double load of the overall table from an
empty cache, then after clear_cache and after set_period. -/
theorem c9_cache_round_trip_witness :
    load_table (fun _ _ => some (42:ℕ))
        (LoaderState.mk Granularity.monthly
          [((TableName.overall, Granularity.monthly), 42)])
        TableName.overall false =
      Except.ok (42,
        LoaderState.mk Granularity.monthly
          [((TableName.overall, Granularity.monthly), 42)], false) ∧
    (∃ s₂, load_table (fun _ _ => some (42:ℕ))
        (clear_cache (LoaderState.mk Granularity.monthly
          [((TableName.overall, Granularity.monthly), 42)]))
        TableName.overall false = Except.ok (42, s₂, true)) ∧
    (∃ s₂, load_table (fun _ _ => some (42:ℕ))
        (set_period (LoaderState.mk Granularity.monthly
          [((TableName.overall, Granularity.monthly), 42)]) Granularity.weekly)
        TableName.overall false = Except.ok (42, s₂, true)) :=
  ⟨c9_cache_round_trip.1 ℕ (fun _ _ => some 42)
      (LoaderState.mk Granularity.monthly []) TableName.overall 42
      (LoaderState.mk Granularity.monthly
        [((TableName.overall, Granularity.monthly), 42)]) true rfl,
   c9_cache_round_trip.2.1 ℕ (fun _ _ => some 42)
      (LoaderState.mk Granularity.monthly
        [((TableName.overall, Granularity.monthly), 42)])
      TableName.overall 42 rfl,
   c9_cache_round_trip.2.2 ℕ (fun _ _ => some 42)
      (LoaderState.mk Granularity.monthly
        [((TableName.overall, Granularity.monthly), 42)])
      Granularity.weekly TableName.overall 42 rfl⟩

end CallCenter
